import Mathlib

/-!
Verification of the email-HTML compatibility validator (`EmailValidator` in the
repository's validation service, together with the `EMAIL_CONSTRAINTS.MAX_WIDTH`
constant).  The TypeScript source is shallowly embedded below: every check is a
substring or regex scan over the raw HTML text, translated here into total
functions on `List Char`.
-/

set_option maxHeartbeats 1000000
set_option maxRecDepth 100000

/-- The `type` field of a finding: `'error' | 'warning'`. -/
inductive FType where
  | error
  | warning
deriving DecidableEq, Repr

/-- The `category` field of a finding.  `structure'` renders the source's
`'structure'` (a Lean keyword). -/
inductive Category where
  | structure'
  | css
  | images
  | compatibility
  | accessibility
deriving DecidableEq, Repr

/-- The `ValidationError` interface: one finding. `line`/`column` are optional and
never populated by any check. -/
structure ValidationError where
  type : FType
  category : Category
  message : String
  suggestion : Option String := none
  line : Option Nat := none
  column : Option Nat := none
deriving DecidableEq, Repr

/-- The `ValidationResult` interface. `score` is a JS number, modelled as `Int`
(the clamp keeps it in `[0, 100]`). -/
structure ValidationResult where
  isValid : Bool
  errors : List ValidationError
  warnings : List ValidationError
  score : Int
deriving DecidableEq, Repr

/-- Whether `needle` is a prefix of `hay`, on raw character lists (all comparisons exact,
like JS `String.prototype.includes`). -/
def isPrefixChars : List Char → List Char → Bool
  | [], _ => true
  | _ :: _, [] => false
  | c :: cs, d :: ds => c == d && isPrefixChars cs ds

/-- Whether `hay` contains `needle` as a contiguous substring (character-list level). -/
def containsSub : List Char → List Char → Bool
  | needle, [] => needle.isEmpty
  | needle, h :: t => isPrefixChars needle (h :: t) || containsSub needle t

/-- JS `html.includes(s)`: exact (case-sensitive) substring containment. -/
def includes (html s : String) : Bool :=
  containsSub s.data html.data

namespace EMAIL_CONSTRAINTS

/-- The `MAX_WIDTH` constant of the constraints module. -/
def MAX_WIDTH : Nat := 600

end EMAIL_CONSTRAINTS

/-! ### The finding catalog

One definition per `errors.push`/`warnings.push` site in the source, with the
exact `type`, `category`, `message` and `suggestion` fields pushed there. -/

/-- Structure error pushed when `<table` is absent. -/
def tableLayoutError : ValidationError :=
  { type := FType.error, category := Category.structure',
    message := "Email must use table-based layout for maximum email client compatibility",
    suggestion := some "Use <table> elements for layout instead of <div> elements" }

/-- Structure warning pushed when `DOCTYPE html PUBLIC` is absent. -/
def doctypeWarning : ValidationError :=
  { type := FType.warning, category := Category.structure',
    message := "Missing HTML 4.01 Transitional DOCTYPE",
    suggestion := some "Add DOCTYPE html PUBLIC \"-//W3C//DTD HTML 4.01 Transitional//EN\" for better compatibility" }

/-- Structure warning pushed when `<html` or `<body` is absent. -/
def htmlStructureWarning : ValidationError :=
  { type := FType.warning, category := Category.structure',
    message := "Missing proper HTML document structure",
    suggestion := some "Include <html> and <body> tags with proper attributes" }

/-- Structure warning pushed when `viewport` is absent. -/
def viewportWarning : ValidationError :=
  { type := FType.warning, category := Category.structure',
    message := "Missing viewport meta tag",
    suggestion := some "Add <meta name=\"viewport\" content=\"width=device-width, initial-scale=1.0\"/> for mobile support" }

/-- Structure error pushed when `<script` or `javascript:` is present. -/
def javascriptError : ValidationError :=
  { type := FType.error, category := Category.structure',
    message := "JavaScript is not supported in email clients",
    suggestion := some "Remove all JavaScript code as it will be stripped by email clients" }

/-- Structure warning pushed when `<form` is present. -/
def formWarning : ValidationError :=
  { type := FType.warning, category := Category.structure',
    message := "Forms have limited support in email clients",
    suggestion := some "Consider using links to external forms instead" }

/-- CSS error pushed when `<link` and `stylesheet` are both present. -/
def externalStylesheetError : ValidationError :=
  { type := FType.error, category := Category.css,
    message := "External stylesheets are blocked by most email clients",
    suggestion := some "Use inline styles instead of external CSS files" }

/-- CSS error pushed when the exact substring `<style>` is present. -/
def styleTagError : ValidationError :=
  { type := FType.error, category := Category.css,
    message := "Style tags have limited support in email clients",
    suggestion := some "Move all CSS to inline style attributes" }

/-- CSS warning pushed per matched entry of the unsupported-property denylist. -/
def unsupportedPropertyWarning (prop msg : String) : ValidationError :=
  { type := FType.warning, category := Category.css,
    message := "CSS property \"" ++ prop ++ "\" - " ++ msg,
    suggestion := some "Use table-based layout and inline styles for better compatibility" }

/-- Suggestion text of the max-width error (`Use max-width: ${MAX_WIDTH}px ...`). -/
def maxWidthSuggestion : String :=
  "Use max-width: " ++ toString EMAIL_CONSTRAINTS.MAX_WIDTH ++ "px for email compatibility"

/-- CSS error pushed when the maximum scanned width exceeds `MAX_WIDTH`. -/
def maxWidthError (maxWidth : Nat) : ValidationError :=
  { type := FType.error, category := Category.css,
    message := "Maximum width exceeded: " ++ toString maxWidth ++ "px (limit: "
      ++ toString EMAIL_CONSTRAINTS.MAX_WIDTH ++ "px)",
    suggestion := some maxWidthSuggestion }

/-- CSS warning pushed per non-web-safe `font-family` match. -/
def fontWarning : ValidationError :=
  { type := FType.warning, category := Category.css,
    message := "Non-web-safe font detected",
    suggestion := some "Use web-safe fonts like Arial, Helvetica, or sans-serif with fallbacks" }

/-- Accessibility warning pushed for image number `n` (1-based) missing `alt=`. -/
def imageAltWarning (n : Nat) : ValidationError :=
  { type := FType.warning, category := Category.accessibility,
    message := "Image " ++ toString n ++ " is missing alt text",
    suggestion := some "Add alt attribute for accessibility and when images are blocked" }

/-- Images warning pushed for image number `n` missing `width=`. -/
def imageWidthWarning (n : Nat) : ValidationError :=
  { type := FType.warning, category := Category.images,
    message := "Image " ++ toString n ++ " is missing width attribute",
    suggestion := some "Add width attribute for consistent rendering across email clients" }

/-- Images warning pushed for image number `n` missing `height=`. -/
def imageHeightWarning (n : Nat) : ValidationError :=
  { type := FType.warning, category := Category.images,
    message := "Image " ++ toString n ++ " is missing height attribute",
    suggestion := some "Add height attribute for consistent rendering across email clients" }

/-- Images warning pushed for image number `n` missing `display: block`. -/
def imageDisplayWarning (n : Nat) : ValidationError :=
  { type := FType.warning, category := Category.images,
    message := "Image " ++ toString n ++ " should use display: block",
    suggestion := some "Add style=\"display: block;\" to prevent spacing issues" }

/-- Compatibility warning pushed when a table lacks `cellpadding="0"`. -/
def cellpaddingWarning : ValidationError :=
  { type := FType.warning, category := Category.compatibility,
    message := "Tables should include cellpadding=\"0\"",
    suggestion := some "Add cellpadding=\"0\" for consistent spacing across email clients" }

/-- Compatibility warning pushed when a table lacks `cellspacing="0"`. -/
def cellspacingWarning : ValidationError :=
  { type := FType.warning, category := Category.compatibility,
    message := "Tables should include cellspacing=\"0\"",
    suggestion := some "Add cellspacing=\"0\" for consistent spacing across email clients" }

/-- Compatibility warning pushed when a table lacks `border="0"`. -/
def borderWarning : ValidationError :=
  { type := FType.warning, category := Category.compatibility,
    message := "Tables should include border=\"0\"",
    suggestion := some "Add border=\"0\" to remove default table borders" }

/-- Compatibility warning pushed when `background-image:` is present. -/
def backgroundImageWarning : ValidationError :=
  { type := FType.warning, category := Category.compatibility,
    message := "Background images have limited support in Outlook",
    suggestion := some "Consider using VML fallbacks for Outlook or avoid background images" }

/-- Accessibility warning pushed when `<div` occurs without any `role=`. -/
def semanticHtmlWarning : ValidationError :=
  { type := FType.warning, category := Category.accessibility,
    message := "Consider using semantic HTML or ARIA roles",
    suggestion := some "Add role attributes or use semantic HTML elements for better accessibility" }

/-- Accessibility warning pushed when `color:` occurs without `background-color:`. -/
def colorContrastWarning : ValidationError :=
  { type := FType.warning, category := Category.accessibility,
    message := "Ensure sufficient color contrast",
    suggestion := some "Test color combinations for accessibility compliance" }

/-! ### Regex scans

The three regexes of the source (`width\s*[=:]\s*["']?(\d+)(?:px)?["']?`,
`font-family\s*:\s*([^;]+)`, `<img[^>]*>`, all with flags `gi`) are embedded as
deterministic character-list scanners.  Each `g`-loop is modelled with a fuel
argument set to the input length; every step consumes at least one character,
so that fuel is always sufficient. -/

/-- JS `\s` (restricted to its ASCII members, which the checks rely on). -/
def isWsChar (c : Char) : Bool :=
  c == ' ' || c == '\t' || c == '\n' || c == '\r' || c == '\x0b' || c == '\x0c'

/-- Case-insensitive match of a (lower-case) literal pattern; returns the rest. -/
def matchCI : List Char → List Char → Option (List Char)
  | [], l => some l
  | _ :: _, [] => none
  | p :: ps, c :: cs => if c.toLower == p then matchCI ps cs else none

/-- Digit run to its decimal value (JS `parseInt` on a nonempty digit string). -/
def digitsToNat (ds : List Char) : Nat :=
  ds.foldl (fun a c => 10 * a + (c.toNat - 48)) 0

/-- One attempted match of `width\s*[=:]\s*["']?(\d+)(?:px)?["']?` (flag `i`)
at the head of the list: on success, the captured number and the suffix after
the whole match (where the next `g`-iteration resumes). -/
def matchWidthAt (l : List Char) : Option (Nat × List Char) :=
  match matchCI "width".data l with
  | none => none
  | some r1 =>
    match r1.dropWhile isWsChar with
    | [] => none
    | c :: r3 =>
      if c == '=' || c == ':' then
        let r4 := r3.dropWhile isWsChar
        let r5 := match r4 with
          | q :: r => if q == '"' || q == '\'' then r else r4
          | [] => r4
        let ds := r5.takeWhile Char.isDigit
        let r6 := r5.dropWhile Char.isDigit
        if ds.isEmpty then none
        else
          let r7 := match r6 with
            | p :: x :: r => if p.toLower == 'p' && x.toLower == 'x' then r else r6
            | _ => r6
          let r8 := match r7 with
            | q :: r => if q == '"' || q == '\'' then r else r7
            | [] => r7
          some (digitsToNat ds, r8)
      else none

/-- The `while (match = widthRegex.exec(html))` loop collecting all widths. -/
def scanWidthsGo : Nat → List Char → List Nat
  | 0, _ => []
  | _ + 1, [] => []
  | fuel + 1, c :: cs =>
    match matchWidthAt (c :: cs) with
    | some (n, rest) => n :: scanWidthsGo fuel rest
    | none => scanWidthsGo fuel cs

/-- All numeric width values scanned from the document. -/
def scanWidths (html : String) : List Nat :=
  scanWidthsGo html.data.length html.data

/-- The source's `widths.length > 0 ? Math.max(...widths) : 0` (over naturals, `Math.max`
of a nonempty list equals the `0`-seeded fold). -/
def maxWidthOf (html : String) : Nat :=
  let widths := scanWidths html
  if widths.isEmpty then 0 else widths.foldl Nat.max 0

/-- One attempted match of `font-family\s*:\s*([^;]+)` (flag `i`) at the head
of the list: on success, the capture and the suffix after the match.  When
everything between `:` and the next `;` is whitespace, the regex backtracks
`\s*` by one character and `([^;]+)` captures that last whitespace character. -/
def matchFontAt (l : List Char) : Option (List Char × List Char) :=
  match matchCI "font-family".data l with
  | none => none
  | some r1 =>
    match r1.dropWhile isWsChar with
    | [] => none
    | c :: r3 =>
      if c == ':' then
        let ws := r3.takeWhile isWsChar
        let r4 := r3.dropWhile isWsChar
        match r4 with
        | d :: _ =>
          if d == ';' then
            match ws.getLast? with
            | some w => some ([w], r4)
            | none => none
          else
            some (r4.takeWhile (fun c => !(c == ';')), r4.dropWhile (fun c => !(c == ';')))
        | [] =>
          match ws.getLast? with
          | some w => some ([w], r4)
          | none => none
      else none

/-- The `while (fontMatch = fontFamilyRegex.exec(html))` loop collecting all
`font-family` captures. -/
def scanFontsGo : Nat → List Char → List (List Char)
  | 0, _ => []
  | _ + 1, [] => []
  | fuel + 1, c :: cs =>
    match matchFontAt (c :: cs) with
    | some (cap, rest) => cap :: scanFontsGo fuel rest
    | none => scanFontsGo fuel cs

/-- All `font-family` value captures scanned from the document. -/
def scanFonts (html : String) : List (List Char) :=
  scanFontsGo html.data.length html.data

/-- One attempted match of `<img[^>]*>` (flag `i`) at the head of the list:
on success, the matched substring (original characters) and the suffix. -/
def matchImgAt (l : List Char) : Option (List Char × List Char) :=
  match matchCI "<img".data l with
  | none => none
  | some r1 =>
    let mid := r1.takeWhile (fun c => !(c == '>'))
    match r1.dropWhile (fun c => !(c == '>')) with
    | _ :: rest => some (l.take (4 + mid.length + 1), rest)
    | [] => none

/-- The scan behind `html.match(/<img[^>]*>/gi) || []`. -/
def scanImgsGo : Nat → List Char → List (List Char)
  | 0, _ => []
  | _ + 1, [] => []
  | fuel + 1, c :: cs =>
    match matchImgAt (c :: cs) with
    | some (m, rest) => m :: scanImgsGo fuel rest
    | none => scanImgsGo fuel cs

/-- All `<img ...>` tag matches of the document, as strings. -/
def imgMatches (html : String) : List String :=
  (scanImgsGo html.data.length html.data).map fun cs => { data := cs }

/-! ### The checks (`EmailValidator.validateXxx`)

Each check is a pure function returning the pair of lists it pushes onto the
shared `errors` and `warnings` arrays, in push order. -/

/-- The check `EmailValidator.validateStructure`. -/
def validateStructure (html : String) : List ValidationError × List ValidationError :=
  ( (if !(includes html "<table") then [tableLayoutError] else [])
      ++ (if includes html "<script" || includes html "javascript:" then [javascriptError] else []),
    (if !(includes html "DOCTYPE html PUBLIC") then [doctypeWarning] else [])
      ++ (if !(includes html "<html") || !(includes html "<body") then [htmlStructureWarning] else [])
      ++ (if !(includes html "viewport") then [viewportWarning] else [])
      ++ (if includes html "<form" then [formWarning] else []) )

/-- The `unsupportedProperties` denylist of `validateCSS`. -/
def unsupportedProperties : List (String × String) :=
  [ ("position: fixed", "Fixed positioning is not supported"),
    ("position: absolute", "Absolute positioning has limited support"),
    ("float:", "Float property has inconsistent support"),
    ("display: flex", "Flexbox is not supported in most email clients"),
    ("display: grid", "CSS Grid is not supported in email clients"),
    ("transform:", "CSS transforms are not supported"),
    ("animation:", "CSS animations are not supported"),
    ("@media", "Media queries have limited support"),
    ("@keyframes", "CSS animations are not supported") ]

/-- JS `toLowerCase`, per character (kernel-computable form of `String.toLower`). -/
def toLowerStr (s : String) : String :=
  { data := s.data.map Char.toLower }

/-- The denylist `forEach` of `validateCSS`: one warning per case-insensitively
matched property. -/
def cssPropertyWarnings (html : String) : List ValidationError :=
  unsupportedProperties.filterMap fun p =>
    if includes (toLowerStr html) (toLowerStr p.1) then some (unsupportedPropertyWarning p.1 p.2)
    else none

/-- The web-safe-font loop of `validateCSS`: one warning per `font-family`
capture whose lower-cased value contains none of `arial`, `helvetica`,
`sans-serif`. -/
def fontWarnings (html : String) : List ValidationError :=
  (scanFonts html).filterMap fun cap =>
    let fontFamily := cap.map Char.toLower
    if !(containsSub "arial".data fontFamily) && !(containsSub "helvetica".data fontFamily)
        && !(containsSub "sans-serif".data fontFamily) then
      some fontWarning
    else none

/-- The check `EmailValidator.validateCSS`. -/
def validateCSS (html : String) : List ValidationError × List ValidationError :=
  ( (if includes html "<link" && includes html "stylesheet" then [externalStylesheetError] else [])
      ++ (if includes html "<style>" then [styleTagError] else [])
      ++ (if maxWidthOf html > EMAIL_CONSTRAINTS.MAX_WIDTH then [maxWidthError (maxWidthOf html)] else []),
    cssPropertyWarnings html ++ fontWarnings html )

/-- The per-image body of the `images.forEach` of `validateImages`
(`index` is the 0-based position of `img` among all matches). -/
def imgChecks (index : Nat) (img : String) : List ValidationError :=
  (if !(includes img "alt=") then [imageAltWarning (index + 1)] else [])
    ++ (if !(includes img "width=") then [imageWidthWarning (index + 1)] else [])
    ++ (if !(includes img "height=") then [imageHeightWarning (index + 1)] else [])
    ++ (if !(includes img "display: block") && !(includes img "display:block") then
          [imageDisplayWarning (index + 1)]
        else [])

/-- All warnings produced by the image loop. -/
def imageWarnings (html : String) : List ValidationError :=
  (imgMatches html).enum.flatMap fun p => imgChecks p.1 p.2

/-- The check `EmailValidator.validateImages` (pushes warnings only). -/
def validateImages (html : String) : List ValidationError × List ValidationError :=
  ([], imageWarnings html)

/-- The check `EmailValidator.validateCompatibility` (pushes warnings only). -/
def validateCompatibility (html : String) : List ValidationError × List ValidationError :=
  ( [],
    (if includes html "<table" then
        (if !(includes html "cellpadding=\"0\"") then [cellpaddingWarning] else [])
          ++ (if !(includes html "cellspacing=\"0\"") then [cellspacingWarning] else [])
          ++ (if !(includes html "border=\"0\"") then [borderWarning] else [])
      else [])
      ++ (if includes html "background-image:" then [backgroundImageWarning] else []) )

/-- The check `EmailValidator.validateAccessibility` (pushes warnings only). -/
def validateAccessibility (html : String) : List ValidationError × List ValidationError :=
  ( [],
    (if includes html "<div" && !(includes html "role=") then [semanticHtmlWarning] else [])
      ++ (if includes html "color:" && !(includes html "background-color:") then [colorContrastWarning] else []) )

/-- Content of the `errors` array after all five checks have run. -/
def validateErrors (html : String) : List ValidationError :=
  (validateStructure html).1 ++ (validateCSS html).1 ++ (validateImages html).1
    ++ (validateCompatibility html).1 ++ (validateAccessibility html).1

/-- Content of the `warnings` array after all five checks have run. -/
def validateWarnings (html : String) : List ValidationError :=
  (validateStructure html).2 ++ (validateCSS html).2 ++ (validateImages html).2
    ++ (validateCompatibility html).2 ++ (validateAccessibility html).2

/-- The scoring step `EmailValidator.calculateCompatibilityScore`. -/
def calculateCompatibilityScore (errors warnings : List ValidationError) : Int :=
  let score : Int := 100
  let errorCount := (errors.filter fun e => decide (e.type = FType.error)).length
  let score := score - errorCount * 15
  let warningCount := warnings.length
  let score := score - warningCount * 5
  max 0 (min 100 score)

/-- The entry point `EmailValidator.validate`. -/
def validate (html : String) : ValidationResult :=
  let errors := validateErrors html
  let warnings := validateWarnings html
  { isValid := errors.length == 0,
    errors := errors ++ warnings,
    warnings := warnings,
    score := calculateCompatibilityScore errors warnings }

/-- The "perfect / fully compatible" summary variant. -/
def perfectSummary (score : Int) : String :=
  "✅ Perfect! Your email template is fully compatible (Score: " ++ toString score ++ "/100)"

/-- The "minor issues" summary variant. -/
def minorIssuesSummary (warningCount : Nat) (score : Int) : String :=
  "⚠️ Good compatibility with " ++ toString warningCount ++ " minor issue"
    ++ (if warningCount != 1 then "s" else "") ++ " (Score: " ++ toString score ++ "/100)"

/-- The "errors and warnings found" summary variant. -/
def errorsFoundSummary (errorCount warningCount : Nat) (score : Int) : String :=
  "❌ " ++ toString errorCount ++ " error" ++ (if errorCount != 1 then "s" else "")
    ++ " and " ++ toString warningCount ++ " warning" ++ (if warningCount != 1 then "s" else "")
    ++ " found (Score: " ++ toString score ++ "/100)"

/-- The renderer `EmailValidator.getValidationSummary`. -/
def getValidationSummary (result : ValidationResult) : String :=
  let errorCount := (result.errors.filter fun e => decide (e.type = FType.error)).length
  let warningCount := result.warnings.length
  let score := result.score
  if errorCount == 0 && warningCount == 0 then perfectSummary score
  else if errorCount == 0 then minorIssuesSummary warningCount score
  else errorsFoundSummary errorCount warningCount score

/-! ### Example documents used in concrete parts of the claims -/

/-- A fully compliant document (spec scenario 4): table layout with
`cellpadding="0" cellspacing="0" border="0"`, DOCTYPE, html/body, viewport,
and nothing any check objects to. -/
def compliantDoc : String :=
  "DOCTYPE html PUBLIC <html><body>viewport<table cellpadding=\"0\" cellspacing=\"0\" border=\"0\"><tr><td>x</td></tr></table></body></html>"

/-- The document `compliantDoc` with a single `<img src="x.png">` lacking alt, width,
height and display, inserted in the table cell (spec scenario 5). -/
def compliantDocWithImg : String :=
  "DOCTYPE html PUBLIC <html><body>viewport<table cellpadding=\"0\" cellspacing=\"0\" border=\"0\"><tr><td><img src=\"x.png\"></td></tr></table></body></html>"

/-- Spec scenario 2's 601px-wide table cell. -/
def wideTableDoc : String :=
  "<table><tr><td style=\"width:601px\">x</td></tr></table>"

/-- A `<style>` opening tag carrying an attribute (so the exact substring
`<style>` does not occur). -/
def attributedStyleDoc : String :=
  "<style type=\"text/css\">"

/-- A document with `<link` in one tag and the bare word `stylesheet` in unrelated prose. -/
def unrelatedLinkStylesheetDoc : String :=
  "<link rel=\"icon\"> and prose mentioning the word stylesheet"

/-- A stylesheet link written without the literal lowercase `stylesheet`. -/
def uppercaseStylesheetLinkDoc : String :=
  "<link href=\"main.css\" rel=\"StyleSheet\">"

/-! ### Helper lemmas -/

/-- Membership in a conditional singleton. -/
theorem mem_ite_sing {α : Type _} {c : Prop} [Decidable c] {x f : α} :
    f ∈ (if c then [x] else []) ↔ c ∧ f = x := by
  by_cases h : c <;> simp [h]

/-- Membership in a conditional list with empty alternative. -/
theorem mem_ite_nil {α : Type _} {c : Prop} [Decidable c] {l : List α} {f : α} :
    f ∈ (if c then l else []) ↔ c ∧ f ∈ l := by
  by_cases h : c <;> simp [h]

/-- Filtering a conditional singleton whose element fails the predicate. -/
theorem filter_ite_nil {α : Type _} {p : α → Bool} {x : α} (c : Prop) [Decidable c]
    (hx : p x = false) : List.filter p (if c then [x] else []) = [] := by
  by_cases h : c <;> simp [h, List.filter_cons, hx]

/-- Filtering a conditional singleton whose element passes the predicate. -/
theorem filter_ite_self {α : Type _} {p : α → Bool} {x : α} (c : Prop) [Decidable c]
    (hx : p x = true) : List.filter p (if c then [x] else []) = if c then [x] else [] := by
  by_cases h : c <;> simp [h, List.filter_cons, hx]

/-- Filtering a conditional list to nil when the unconditional filter is nil. -/
theorem filter_ite_nil_list {α : Type _} {p : α → Bool} {l : List α} (c : Prop) [Decidable c]
    (hl : List.filter p l = []) : List.filter p (if c then l else []) = [] := by
  split
  · exact hl
  · rfl

/-- Every element of `cssPropertyWarnings` is an `unsupportedPropertyWarning`. -/
theorem mem_cssPropertyWarnings {html : String} {f : ValidationError}
    (hf : f ∈ cssPropertyWarnings html) : ∃ a b, f = unsupportedPropertyWarning a b := by
  simp only [cssPropertyWarnings, List.mem_filterMap] at hf
  obtain ⟨⟨a, b⟩, -, hab⟩ := hf
  split at hab
  · exact ⟨a, b, (Option.some_inj.mp hab).symm⟩
  · exact absurd hab (by simp)

/-- Every element of `fontWarnings` is the constant `fontWarning`. -/
theorem mem_fontWarnings {html : String} {f : ValidationError}
    (hf : f ∈ fontWarnings html) : f = fontWarning := by
  simp only [fontWarnings, List.mem_filterMap] at hf
  obtain ⟨cap, -, hab⟩ := hf
  split at hab
  · exact (Option.some_inj.mp hab).symm
  · exact absurd hab (by simp)

/-- Every element of `imageWarnings` is one of the four per-image warnings. -/
theorem mem_imageWarnings {html : String} {f : ValidationError}
    (hf : f ∈ imageWarnings html) :
    ∃ n, f = imageAltWarning n ∨ f = imageWidthWarning n ∨ f = imageHeightWarning n
      ∨ f = imageDisplayWarning n := by
  simp only [imageWarnings, List.mem_flatMap] at hf
  obtain ⟨⟨i, s⟩, -, hfi⟩ := hf
  simp only [imgChecks, List.mem_append, mem_ite_sing] at hfi
  exact ⟨i + 1, by tauto⟩

/-- Shape of every element of the `errors` array. -/
theorem mem_validateErrors {html : String} {f : ValidationError}
    (hf : f ∈ validateErrors html) :
    f = tableLayoutError ∨ f = javascriptError ∨ f = externalStylesheetError
      ∨ f = styleTagError ∨ f = maxWidthError (maxWidthOf html) := by
  simp only [validateErrors, validateStructure, validateCSS, validateImages,
    validateCompatibility, validateAccessibility, List.mem_append, mem_ite_sing,
    List.not_mem_nil, or_false, false_or] at hf
  tauto

/-- Shape of every element of the `warnings` array. -/
theorem mem_validateWarnings {html : String} {f : ValidationError}
    (hf : f ∈ validateWarnings html) :
    f = doctypeWarning ∨ f = htmlStructureWarning ∨ f = viewportWarning ∨ f = formWarning
      ∨ (∃ a b, f = unsupportedPropertyWarning a b) ∨ f = fontWarning
      ∨ (∃ n, f = imageAltWarning n ∨ f = imageWidthWarning n ∨ f = imageHeightWarning n
          ∨ f = imageDisplayWarning n)
      ∨ f = cellpaddingWarning ∨ f = cellspacingWarning ∨ f = borderWarning
      ∨ f = backgroundImageWarning ∨ f = semanticHtmlWarning ∨ f = colorContrastWarning := by
  simp only [validateWarnings, List.mem_append] at hf
  rcases hf with (((hf | hf) | hf) | hf) | hf
  · simp only [validateStructure, List.mem_append, mem_ite_sing] at hf
    rcases hf with ((⟨-, rfl⟩ | ⟨-, rfl⟩) | ⟨-, rfl⟩) | ⟨-, rfl⟩
    · exact Or.inl rfl
    · exact Or.inr (Or.inl rfl)
    · exact Or.inr (Or.inr (Or.inl rfl))
    · exact Or.inr (Or.inr (Or.inr (Or.inl rfl)))
  · simp only [validateCSS, List.mem_append] at hf
    rcases hf with hf | hf
    · exact Or.inr (Or.inr (Or.inr (Or.inr (Or.inl (mem_cssPropertyWarnings hf)))))
    · exact Or.inr (Or.inr (Or.inr (Or.inr (Or.inr (Or.inl (mem_fontWarnings hf))))))
  · simp only [validateImages] at hf
    exact Or.inr (Or.inr (Or.inr (Or.inr (Or.inr (Or.inr (Or.inl (mem_imageWarnings hf)))))))
  · simp only [validateCompatibility, List.mem_append, mem_ite_nil, mem_ite_sing,
      List.mem_singleton] at hf
    rcases hf with ⟨-, (⟨-, rfl⟩ | ⟨-, rfl⟩) | ⟨-, rfl⟩⟩ | ⟨-, rfl⟩
    · exact Or.inr (Or.inr (Or.inr (Or.inr (Or.inr (Or.inr (Or.inr (Or.inl rfl)))))))
    · exact Or.inr (Or.inr (Or.inr (Or.inr (Or.inr (Or.inr (Or.inr (Or.inr (Or.inl rfl))))))))
    · exact Or.inr (Or.inr (Or.inr (Or.inr (Or.inr (Or.inr (Or.inr (Or.inr (Or.inr
        (Or.inl rfl)))))))))
    · exact Or.inr (Or.inr (Or.inr (Or.inr (Or.inr (Or.inr (Or.inr (Or.inr (Or.inr
        (Or.inr (Or.inl rfl))))))))))
  · simp only [validateAccessibility, List.mem_append, mem_ite_sing] at hf
    rcases hf with ⟨-, rfl⟩ | ⟨-, rfl⟩
    · exact Or.inr (Or.inr (Or.inr (Or.inr (Or.inr (Or.inr (Or.inr (Or.inr (Or.inr
        (Or.inr (Or.inr (Or.inl rfl)))))))))))
    · exact Or.inr (Or.inr (Or.inr (Or.inr (Or.inr (Or.inr (Or.inr (Or.inr (Or.inr
        (Or.inr (Or.inr (Or.inr rfl)))))))))))

/-- Every element of the `errors` array has type `error`. -/
theorem type_of_mem_validateErrors {html : String} {f : ValidationError}
    (hf : f ∈ validateErrors html) : f.type = FType.error := by
  rcases mem_validateErrors hf with rfl | rfl | rfl | rfl | rfl <;> rfl

/-- Every element of the `warnings` array has type `warning`. -/
theorem type_of_mem_validateWarnings {html : String} {f : ValidationError}
    (hf : f ∈ validateWarnings html) : f.type = FType.warning := by
  rcases mem_validateWarnings hf with rfl | rfl | rfl | rfl | ⟨a, b, rfl⟩ | rfl
    | ⟨n, rfl | rfl | rfl | rfl⟩ | rfl | rfl | rfl | rfl | rfl | rfl <;> rfl

/-- The error-filter keeps the whole `errors` array. -/
theorem filter_error_validateErrors (html : String) :
    (validateErrors html).filter (fun f => decide (f.type = FType.error)) = validateErrors html := by
  rw [List.filter_eq_self]
  intro f hf
  simp [type_of_mem_validateErrors hf]

/-- The error-filter drops the whole `warnings` array. -/
theorem filter_error_validateWarnings (html : String) :
    (validateWarnings html).filter (fun f => decide (f.type = FType.error)) = [] := by
  rw [List.filter_eq_nil_iff]
  intro f hf
  simp [type_of_mem_validateWarnings hf]

/-- The warning-filter drops the whole `errors` array. -/
theorem filter_warning_validateErrors (html : String) :
    (validateErrors html).filter (fun f => decide (f.type = FType.warning)) = [] := by
  rw [List.filter_eq_nil_iff]
  intro f hf
  simp [type_of_mem_validateErrors hf]

/-- The warning-filter keeps the whole `warnings` array. -/
theorem filter_warning_validateWarnings (html : String) :
    (validateWarnings html).filter (fun f => decide (f.type = FType.warning))
      = validateWarnings html := by
  rw [List.filter_eq_self]
  intro f hf
  simp [type_of_mem_validateWarnings hf]

/-- The result's `errors` field is the `errors` array followed by the
`warnings` array. -/
theorem validate_errors_eq (html : String) :
    (validate html).errors = validateErrors html ++ validateWarnings html := rfl

/-- The result's `warnings` field is the `warnings` array. -/
theorem validate_warnings_eq (html : String) :
    (validate html).warnings = validateWarnings html := rfl

/-- The result's `isValid` field tests emptiness of the `errors` array. -/
theorem validate_isValid_eq (html : String) :
    (validate html).isValid = ((validateErrors html).length == 0) := rfl

/-- The result's `score` field. -/
theorem validate_score_eq (html : String) :
    (validate html).score
      = calculateCompatibilityScore (validateErrors html) (validateWarnings html) := rfl

/-- Splitting a filter of the combined findings list. -/
theorem filter_validate_errors_split (html : String) (p : ValidationError → Bool) :
    ((validate html).errors.filter p)
      = (validateErrors html).filter p ++ (validateWarnings html).filter p := by
  rw [validate_errors_eq, List.filter_append]

/-- Filtering the `errors` array reduces to its structure and CSS chunks. -/
theorem filter_validateErrors_eq (html : String) (p : ValidationError → Bool) :
    (validateErrors html).filter p
      = ((validateStructure html).1.filter p) ++ ((validateCSS html).1.filter p) := by
  simp [validateErrors, validateImages, validateCompatibility, validateAccessibility,
    List.filter_append]

/-- Filtering the structure-check errors chunk, elementwise. -/
theorem filter_structureErrors (html : String) (p : ValidationError → Bool)
    (h1 : p tableLayoutError = false) (h2 : p javascriptError = false) :
    (validateStructure html).1.filter p = [] := by
  simp only [validateStructure]
  rw [List.filter_append, filter_ite_nil _ h1, filter_ite_nil _ h2, List.append_nil]

/-- Filtering the CSS-check errors chunk, elementwise. -/
theorem filter_cssErrors (html : String) (p : ValidationError → Bool) :
    (validateCSS html).1.filter p
      = (if includes html "<link" && includes html "stylesheet"
            then [externalStylesheetError] else []).filter p
        ++ (if includes html "<style>" then [styleTagError] else []).filter p
        ++ (if maxWidthOf html > EMAIL_CONSTRAINTS.MAX_WIDTH
              then [maxWidthError (maxWidthOf html)] else []).filter p := by
  simp only [validateCSS]
  rw [List.filter_append, List.filter_append]

/-- Filtering the `warnings` array drops everything when the predicate rejects
each producible warning shape. -/
theorem filter_validateWarnings_nil (html : String) (p : ValidationError → Bool)
    (h1 : p doctypeWarning = false) (h2 : p htmlStructureWarning = false)
    (h3 : p viewportWarning = false) (h4 : p formWarning = false)
    (h5 : ∀ a b, p (unsupportedPropertyWarning a b) = false) (h6 : p fontWarning = false)
    (h7 : ∀ n, p (imageAltWarning n) = false) (h8 : ∀ n, p (imageWidthWarning n) = false)
    (h9 : ∀ n, p (imageHeightWarning n) = false) (h10 : ∀ n, p (imageDisplayWarning n) = false)
    (h11 : p cellpaddingWarning = false) (h12 : p cellspacingWarning = false)
    (h13 : p borderWarning = false) (h14 : p backgroundImageWarning = false)
    (h15 : p semanticHtmlWarning = false) (h16 : p colorContrastWarning = false) :
    (validateWarnings html).filter p = [] := by
  rw [List.filter_eq_nil_iff]
  intro f hf
  rcases mem_validateWarnings hf with rfl | rfl | rfl | rfl | ⟨a, b, rfl⟩ | rfl
    | ⟨n, rfl | rfl | rfl | rfl⟩ | rfl | rfl | rfl | rfl | rfl | rfl <;>
    simp [h1, h2, h3, h4, h5, h6, h7, h8, h9, h10, h11, h12, h13, h14, h15, h16]

/-! ### Claims -/

/-- C1: for every input string `h`, `validate(h).score` equals
`clamp(100 - 15*errorCount - 5*warningCount, 0, 100)` where `errorCount` and
`warningCount` count the error-type and warning-type findings of the result,
and `0 <= score <= 100` always holds. -/
theorem c1_score_formula :
    ∀ h : String,
      (validate h).score
          = max 0 (min 100 (100
              - 15 * (((validate h).errors.filter fun f => decide (f.type = FType.error)).length : Int)
              - 5 * (((validate h).errors.filter fun f => decide (f.type = FType.warning)).length : Int)))
        ∧ 0 ≤ (validate h).score ∧ (validate h).score ≤ 100 := by
  intro h
  have hef : ((validate h).errors.filter fun f => decide (f.type = FType.error))
      = validateErrors h := by
    rw [filter_validate_errors_split, filter_error_validateErrors,
      filter_error_validateWarnings, List.append_nil]
  have hwf : ((validate h).errors.filter fun f => decide (f.type = FType.warning))
      = validateWarnings h := by
    rw [filter_validate_errors_split, filter_warning_validateErrors,
      filter_warning_validateWarnings, List.nil_append]
  rw [hef, hwf, validate_score_eq]
  simp only [calculateCompatibilityScore, filter_error_validateErrors]
  refine ⟨?_, le_max_left _ _, max_le (by norm_num) (min_le_left _ _)⟩
  ring_nf

/-- C2: `validate(h).isValid` holds iff no finding of the result has type
`error` (equivalently, the error-type finding count is zero). -/
theorem c2_isValid_iff_no_errors :
    ∀ h : String,
      ((validate h).isValid = true ↔ ∀ f ∈ (validate h).errors, f.type ≠ FType.error)
      ∧ ((validate h).isValid = true
          ↔ ((validate h).errors.countP fun f => decide (f.type = FType.error)) = 0) := by
  intro h
  have hcount : ((validate h).errors.countP fun f => decide (f.type = FType.error))
      = (validateErrors h).length := by
    rw [List.countP_eq_length_filter, filter_validate_errors_split,
      filter_error_validateErrors, filter_error_validateWarnings, List.append_nil]
  constructor
  · rw [validate_isValid_eq, beq_iff_eq, List.length_eq_zero]
    constructor
    · intro he f hf hferr
      rw [validate_errors_eq, he, List.nil_append] at hf
      have := type_of_mem_validateWarnings hf
      rw [hferr] at this
      exact FType.noConfusion this
    · intro hall
      cases hE : validateErrors h with
      | nil => rfl
      | cons g t =>
        have hg : g ∈ (validate h).errors := by
          rw [validate_errors_eq, hE]
          exact List.mem_append_left _ (List.mem_cons_self g t)
        have hgtype : g.type = FType.error :=
          type_of_mem_validateErrors (by rw [hE]; exact List.mem_cons_self g t)
        exact absurd hgtype (hall g hg)
  · rw [validate_isValid_eq, beq_iff_eq, hcount]

/-- C3: `validate` is total — it returns a `ValidationResult` on every input —
and structureless inputs (the empty string, plain non-HTML text) just produce
findings, never a failure. -/
theorem c3_total :
    (∀ h : String, ∃ r : ValidationResult, validate h = r)
    ∧ (validate "").errors ≠ [] ∧ (validate "").isValid = false
    ∧ (validate "just some plain text <<>>").errors ≠ [] := by
  refine ⟨fun h => ⟨validate h, rfl⟩, ?_, ?_, ?_⟩ <;> decide

/-- C4: the result's `errors` field is all error-type findings followed by all
warning-type findings, and its `warnings` field is exactly the warning-type
subsequence of `errors`. -/
theorem c4_errors_partition :
    ∀ h : String, ∃ E W,
      (validate h).errors = E ++ W
      ∧ (∀ f ∈ E, f.type = FType.error)
      ∧ (∀ f ∈ W, f.type = FType.warning)
      ∧ (validate h).warnings = W
      ∧ ((validate h).errors.filter fun f => decide (f.type = FType.warning))
          = (validate h).warnings := by
  intro h
  refine ⟨validateErrors h, validateWarnings h, validate_errors_eq h,
    fun f hf => type_of_mem_validateErrors hf, fun f hf => type_of_mem_validateWarnings hf,
    validate_warnings_eq h, ?_⟩
  rw [filter_validate_errors_split, filter_warning_validateErrors,
    filter_warning_validateWarnings, List.nil_append, validate_warnings_eq]

/-- Merging the literal pieces around the rendered 600px limit. -/
theorem limit_message_merge (s : String) :
    s ++ "px (limit: " ++ toString EMAIL_CONSTRAINTS.MAX_WIDTH ++ "px)"
      = s ++ "px (limit: 600px)" := by
  apply String.ext
  simp only [String.data_append, List.append_assoc]
  congr 1

/-- C5: the width scan collects the maximum matched numeric width; exactly one
css error citing that maximum and the 600 limit is appended iff the maximum
exceeds 600 (`wideTableDoc` scans to 601). -/
theorem c5_max_width :
    ∀ h : String,
      ((validate h).errors.filter fun f => decide (f.suggestion = some maxWidthSuggestion))
          = (if maxWidthOf h > EMAIL_CONSTRAINTS.MAX_WIDTH
              then [maxWidthError (maxWidthOf h)] else [])
      ∧ (maxWidthError (maxWidthOf h)).type = FType.error
      ∧ (maxWidthError (maxWidthOf h)).category = Category.css
      ∧ (maxWidthError (maxWidthOf h)).message
          = "Maximum width exceeded: " ++ toString (maxWidthOf h) ++ "px (limit: 600px)"
      ∧ EMAIL_CONSTRAINTS.MAX_WIDTH = 600
      ∧ maxWidthOf wideTableDoc = 601 := by
  intro h
  refine ⟨?_, rfl, rfl, ?_, rfl, by decide⟩
  · rw [filter_validate_errors_split, filter_validateErrors_eq,
      filter_structureErrors h _ (by decide) (by decide),
      filter_cssErrors,
      filter_ite_nil _ (by decide),
      filter_ite_nil _ (by decide),
      filter_ite_self _ (by simp [maxWidthError]),
      filter_validateWarnings_nil h _ (by decide) (by decide) (by decide) (by decide)
        (by intro a b; rfl) (by decide)
        (by intro n; rfl)
        (by intro n; rfl)
        (by intro n; rfl)
        (by intro n; rfl)
        (by decide) (by decide) (by decide) (by decide) (by decide) (by decide)]
    simp
  · show "Maximum width exceeded: " ++ toString (maxWidthOf h) ++ "px (limit: "
        ++ toString EMAIL_CONSTRAINTS.MAX_WIDTH ++ "px)" = _
    exact limit_message_merge _

/-- Membership in a list with the `errors`-array decomposition exposed. -/
theorem mem_validate_errors_of_mem_structure {html : String} {f : ValidationError}
    (hf : f ∈ (validateStructure html).1) : f ∈ (validate html).errors := by
  rw [validate_errors_eq]
  exact List.mem_append_left _ (by
    simp only [validateErrors, List.append_assoc]
    exact List.mem_append_left _ hf)

/-- Membership in a list with the CSS errors chunk exposed. -/
theorem mem_validate_errors_of_mem_css {html : String} {f : ValidationError}
    (hf : f ∈ (validateCSS html).1) : f ∈ (validate html).errors := by
  rw [validate_errors_eq]
  refine List.mem_append_left _ ?_
  simp only [validateErrors, List.mem_append]
  exact Or.inl (Or.inl (Or.inl (Or.inr hf)))

/-- A member of the `errors` array forces `isValid = false`. -/
theorem isValid_false_of_mem_validateErrors {html : String} {f : ValidationError}
    (hf : f ∈ validateErrors html) : (validate html).isValid = false := by
  rw [validate_isValid_eq]
  cases hE : validateErrors html with
  | nil => rw [hE] at hf; exact absurd hf (List.not_mem_nil f)
  | cons g t => rfl

/-- C6: any input containing `<script` or `javascript:` yields the
structure-category JavaScript error, and `isValid` is false regardless of the
rest of the input. -/
theorem c6_javascript (h : String)
    (hcond : includes h "<script" = true ∨ includes h "javascript:" = true) :
    javascriptError ∈ (validate h).errors
    ∧ javascriptError.type = FType.error
    ∧ javascriptError.category = Category.structure'
    ∧ javascriptError.message = "JavaScript is not supported in email clients"
    ∧ (validate h).isValid = false := by
  have hor : (includes h "<script" || includes h "javascript:") = true := by
    rcases hcond with hc | hc <;> simp [hc]
  have hmem : javascriptError ∈ (validateStructure h).1 := by
    simp [validateStructure, hor]
  refine ⟨mem_validate_errors_of_mem_structure hmem, rfl, rfl, rfl, ?_⟩
  have hmemE : javascriptError ∈ validateErrors h := by
    simp only [validateErrors, List.mem_append]
    exact Or.inl (Or.inl (Or.inl (Or.inl hmem)))
  exact isValid_false_of_mem_validateErrors hmemE

/-- Witness for C6 at the concrete input `<script>alert(1)</script>`. -/
theorem c6_javascript_witness :
    javascriptError ∈ (validate "<script>alert(1)</script>").errors
    ∧ (validate "<script>alert(1)</script>").isValid = false :=
  ⟨(c6_javascript "<script>alert(1)</script>" (Or.inl (by decide))).1,
   (c6_javascript "<script>alert(1)</script>" (Or.inl (by decide))).2.2.2.2⟩

/-- C7 counterexample: `attributedStyleDoc` opens a style tag with an
attribute (`<style type="text/css">`), yet `validate` appends no css error
about style tags, refuting the claim for attribute-carrying style tags. -/
theorem c7_style_tag_counterexample :
    includes attributedStyleDoc "<style " = true
    ∧ includes attributedStyleDoc "<style>" = false
    ∧ styleTagError ∉ (validate attributedStyleDoc).errors
    ∧ ((validate attributedStyleDoc).errors.filter fun f =>
        decide (f.suggestion = some "Move all CSS to inline style attributes")) = [] := by
  refine ⟨by decide, by decide, by decide, by decide⟩

/-- C7 (amended): the css error about style tags is appended exactly when the
input contains the literal substring `<style>`; a style opening tag written
with attributes is not flagged. -/
theorem c7_style_tag_amended :
    ∀ h : String,
      ((validate h).errors.filter fun f =>
          decide (f.suggestion = some "Move all CSS to inline style attributes"))
        = (if includes h "<style>" then [styleTagError] else [])
      ∧ (styleTagError ∈ (validate h).errors ↔ includes h "<style>" = true)
      ∧ styleTagError.type = FType.error
      ∧ styleTagError.category = Category.css
      ∧ styleTagError.message = "Style tags have limited support in email clients" := by
  intro h
  have hfilter : ((validate h).errors.filter fun f =>
      decide (f.suggestion = some "Move all CSS to inline style attributes"))
      = (if includes h "<style>" then [styleTagError] else []) := by
    rw [filter_validate_errors_split, filter_validateErrors_eq,
      filter_structureErrors h _ (by decide) (by decide),
      filter_cssErrors,
      filter_ite_nil _ (by decide),
      filter_ite_self _ (by decide),
      filter_ite_nil _ (by rfl),
      filter_validateWarnings_nil h _ (by decide) (by decide) (by decide) (by decide)
        (by intro a b; rfl) (by decide)
        (by intro n; rfl) (by intro n; rfl) (by intro n; rfl) (by intro n; rfl)
        (by decide) (by decide) (by decide) (by decide) (by decide) (by decide)]
    simp
  refine ⟨hfilter, ?_, rfl, rfl, rfl⟩
  constructor
  · intro hmem
    have hin : styleTagError ∈ ((validate h).errors.filter fun f =>
        decide (f.suggestion = some "Move all CSS to inline style attributes")) :=
      List.mem_filter.mpr ⟨hmem, by decide⟩
    rw [hfilter] at hin
    by_cases hc : includes h "<style>" = true
    · exact hc
    · rw [if_neg (by simpa using hc)] at hin
      exact absurd hin (List.not_mem_nil _)
  · intro hc
    have hin : styleTagError ∈ (if includes h "<style>" then [styleTagError] else []) := by
      simp [hc]
    rw [← hfilter] at hin
    exact (List.mem_filter.mp hin).1

/-- Filtering the `warnings` array keeps exactly the image-check warnings when
the predicate accepts the four per-image shapes and rejects all others. -/
theorem filter_validateWarnings_images (html : String) (p : ValidationError → Bool)
    (h1 : p doctypeWarning = false) (h2 : p htmlStructureWarning = false)
    (h3 : p viewportWarning = false) (h4 : p formWarning = false)
    (h5 : ∀ a b, p (unsupportedPropertyWarning a b) = false) (h6 : p fontWarning = false)
    (ha : ∀ n, p (imageAltWarning n) = true) (hw : ∀ n, p (imageWidthWarning n) = true)
    (hh : ∀ n, p (imageHeightWarning n) = true) (hd : ∀ n, p (imageDisplayWarning n) = true)
    (h11 : p cellpaddingWarning = false) (h12 : p cellspacingWarning = false)
    (h13 : p borderWarning = false) (h14 : p backgroundImageWarning = false)
    (h15 : p semanticHtmlWarning = false) (h16 : p colorContrastWarning = false) :
    (validateWarnings html).filter p = imageWarnings html := by
  have hs2 : (validateStructure html).2.filter p = [] := by
    simp only [validateStructure]
    rw [List.filter_append, List.filter_append, List.filter_append,
      filter_ite_nil _ h1, filter_ite_nil _ h2, filter_ite_nil _ h3, filter_ite_nil _ h4]
    rfl
  have hcp : (cssPropertyWarnings html).filter p = [] := by
    rw [List.filter_eq_nil_iff]
    intro f hf
    obtain ⟨a, b, rfl⟩ := mem_cssPropertyWarnings hf
    simp [h5]
  have hfw : (fontWarnings html).filter p = [] := by
    rw [List.filter_eq_nil_iff]
    intro f hf
    rw [mem_fontWarnings hf]
    simp [h6]
  have hc2 : (validateCSS html).2.filter p = [] := by
    simp only [validateCSS]
    rw [List.filter_append, hcp, hfw]
    rfl
  have hi2 : (validateImages html).2.filter p = imageWarnings html := by
    simp only [validateImages]
    rw [List.filter_eq_self]
    intro f hf
    obtain ⟨n, rfl | rfl | rfl | rfl⟩ := mem_imageWarnings hf
    · exact ha n
    · exact hw n
    · exact hh n
    · exact hd n
  have hm2 : (validateCompatibility html).2.filter p = [] := by
    simp only [validateCompatibility]
    rw [List.filter_append,
      filter_ite_nil_list _ (by
        rw [List.filter_append, List.filter_append,
          filter_ite_nil _ h11, filter_ite_nil _ h12, filter_ite_nil _ h13]
        rfl),
      filter_ite_nil _ h14]
    rfl
  have ha2 : (validateAccessibility html).2.filter p = [] := by
    simp only [validateAccessibility]
    rw [List.filter_append, filter_ite_nil _ h15, filter_ite_nil _ h16]
    rfl
  simp only [validateWarnings, List.filter_append, hs2, hc2, hi2, hm2, ha2]
  simp

/-- C8: the image-suggestion findings of any result are exactly the warnings
of the per-image loop; the compliant document with one bare `<img src="x.png">`
gets exactly the four warnings numbered `1`, and scores 20 below the compliant
document's 100. -/
theorem c8_image_warnings :
    (∀ h : String,
      ((validate h).errors.filter fun f =>
          decide (f.suggestion = some "Add alt attribute for accessibility and when images are blocked")
          || decide (f.suggestion = some "Add width attribute for consistent rendering across email clients")
          || decide (f.suggestion = some "Add height attribute for consistent rendering across email clients")
          || decide (f.suggestion = some "Add style=\"display: block;\" to prevent spacing issues"))
        = imageWarnings h)
    ∧ imgMatches compliantDocWithImg = ["<img src=\"x.png\">"]
    ∧ imageWarnings compliantDocWithImg
        = [imageAltWarning 1, imageWidthWarning 1, imageHeightWarning 1, imageDisplayWarning 1]
    ∧ (validate compliantDocWithImg).score + 20 = (validate compliantDoc).score
    ∧ (validate compliantDoc).score = 100 := by
  refine ⟨?_, by decide, by decide, by decide, by decide⟩
  intro h
  rw [filter_validate_errors_split, filter_validateErrors_eq,
    filter_structureErrors h _ (by decide) (by decide),
    filter_cssErrors,
    filter_ite_nil _ (by decide), filter_ite_nil _ (by decide), filter_ite_nil _ (by rfl),
    filter_validateWarnings_images h _ (by decide) (by decide) (by decide) (by decide)
      (by intro a b; rfl) (by decide)
      (by intro n; rfl) (by intro n; rfl) (by intro n; rfl) (by intro n; rfl)
      (by decide) (by decide) (by decide) (by decide) (by decide) (by decide)]
  simp

/-- A list is a prefix of itself extended by anything. -/
theorem isPrefixChars_append_self : ∀ (n b : List Char), isPrefixChars n (n ++ b) = true
  | [], _ => rfl
  | c :: cs, b => by simp [isPrefixChars, isPrefixChars_append_self cs b]

/-- A contiguous sublist is found by `containsSub`. -/
theorem containsSub_append_self : ∀ (a n b : List Char), containsSub n (a ++ (n ++ b)) = true := by
  intro a
  induction a with
  | nil =>
    intro n b
    cases n with
    | nil =>
      cases b with
      | nil => rfl
      | cons h t => simp [containsSub, isPrefixChars]
    | cons c cs =>
      simp only [containsSub, Bool.or_eq_true]
      exact Or.inl (isPrefixChars_append_self (c :: cs) b)
  | cons c a ih =>
    intro n b
    simp [containsSub, ih n b]

/-- Any summary text ending in `(Score: ${score}/100)` contains the substring
`${score}/100`. -/
theorem includes_score_suffix (a : String) (score : Int) :
    includes (a ++ toString score ++ "/100)") (toString score ++ "/100") = true := by
  have h2 : ("/100)" : String).data = "/100".data ++ [')'] := by decide
  have h1 : (a ++ toString score ++ "/100)").data
      = a.data ++ (((toString score).data ++ "/100".data) ++ [')']) := by
    simp [String.data_append, h2, List.append_assoc]
  show containsSub (toString score ++ "/100").data (a ++ toString score ++ "/100)").data = true
  rw [h1, String.data_append]
  exact containsSub_append_self _ _ _

/-- C9: `getValidationSummary` renders one of exactly three variants — perfect
when there are no error-type findings and no warnings, minor-issues when there
are no error-type findings but some warnings, errors-found otherwise — and the
returned string always contains `${score}/100`. -/
theorem c9_summary_variants :
    ∀ r : ValidationResult,
      (((r.errors.filter fun e => decide (e.type = FType.error)).length = 0
          ∧ r.warnings.length = 0
          ∧ getValidationSummary r = perfectSummary r.score)
        ∨ ((r.errors.filter fun e => decide (e.type = FType.error)).length = 0
          ∧ r.warnings.length ≠ 0
          ∧ getValidationSummary r = minorIssuesSummary r.warnings.length r.score)
        ∨ ((r.errors.filter fun e => decide (e.type = FType.error)).length ≠ 0
          ∧ getValidationSummary r
              = errorsFoundSummary
                  (r.errors.filter fun e => decide (e.type = FType.error)).length
                  r.warnings.length r.score))
      ∧ includes (getValidationSummary r) (toString r.score ++ "/100") = true := by
  intro r
  by_cases he : (r.errors.filter fun e => decide (e.type = FType.error)).length = 0
  · by_cases hw : r.warnings.length = 0
    · have hg : getValidationSummary r = perfectSummary r.score := by
        simp [getValidationSummary, he, hw]
      refine ⟨Or.inl ⟨he, hw, hg⟩, ?_⟩
      rw [hg]
      exact includes_score_suffix _ _
    · have hg : getValidationSummary r = minorIssuesSummary r.warnings.length r.score := by
        simp [getValidationSummary, he, hw]
      refine ⟨Or.inr (Or.inl ⟨he, hw, hg⟩), ?_⟩
      rw [hg]
      exact includes_score_suffix _ _
  · have hg : getValidationSummary r
        = errorsFoundSummary (r.errors.filter fun e => decide (e.type = FType.error)).length
            r.warnings.length r.score := by
      simp [getValidationSummary, he]
    refine ⟨Or.inr (Or.inr ⟨he, hg⟩), ?_⟩
    rw [hg]
    exact includes_score_suffix _ _

/-- C10: the external-stylesheet css error is appended iff the input contains
the substring `<link` somewhere and the substring `stylesheet` somewhere, even
in unrelated places (`unrelatedLinkStylesheetDoc` is flagged and invalid),
while a stylesheet link without the literal lowercase `stylesheet`
(`uppercaseStylesheetLinkDoc`) is never flagged. -/
theorem c10_link_stylesheet :
    (∀ h : String,
      externalStylesheetError ∈ (validate h).errors
        ↔ (includes h "<link" = true ∧ includes h "stylesheet" = true))
    ∧ externalStylesheetError ∈ (validate unrelatedLinkStylesheetDoc).errors
    ∧ (validate unrelatedLinkStylesheetDoc).isValid = false
    ∧ externalStylesheetError ∉ (validate uppercaseStylesheetLinkDoc).errors := by
  refine ⟨?_, by decide, by decide, by decide⟩
  intro h
  have hfilter : ((validate h).errors.filter fun f =>
      decide (f.suggestion = some "Use inline styles instead of external CSS files"))
      = (if includes h "<link" && includes h "stylesheet"
          then [externalStylesheetError] else []) := by
    rw [filter_validate_errors_split, filter_validateErrors_eq,
      filter_structureErrors h _ (by decide) (by decide),
      filter_cssErrors,
      filter_ite_self _ (by decide),
      filter_ite_nil _ (by decide),
      filter_ite_nil _ (by rfl),
      filter_validateWarnings_nil h _ (by decide) (by decide) (by decide) (by decide)
        (by intro a b; rfl) (by decide)
        (by intro n; rfl) (by intro n; rfl) (by intro n; rfl) (by intro n; rfl)
        (by decide) (by decide) (by decide) (by decide) (by decide) (by decide)]
    simp
  constructor
  · intro hmem
    have hin : externalStylesheetError ∈ ((validate h).errors.filter fun f =>
        decide (f.suggestion = some "Use inline styles instead of external CSS files")) :=
      List.mem_filter.mpr ⟨hmem, by decide⟩
    rw [hfilter] at hin
    by_cases hc : (includes h "<link" && includes h "stylesheet") = true
    · exact ⟨(Bool.and_eq_true _ _).mp hc |>.1, (Bool.and_eq_true _ _).mp hc |>.2⟩
    · rw [if_neg (by simpa using hc)] at hin
      exact absurd hin (List.not_mem_nil _)
  · rintro ⟨h1, h2⟩
    have hc : (includes h "<link" && includes h "stylesheet") = true := by simp [h1, h2]
    have hin : externalStylesheetError
        ∈ (if includes h "<link" && includes h "stylesheet"
            then [externalStylesheetError] else []) := by
      simp [hc]
    rw [← hfilter] at hin
    exact (List.mem_filter.mp hin).1
